import Mathlib

/-
Formal model of the Legato sensor framework (src/sensorFw/sensorFw.c,
src/sensorFw/sensorFw.h, src/sensorFw/config.h).

The framework sits between hardware plugins and the Data Hub.  The C code
is shallowly embedded here: the registry state (memory pool counter,
registered-sensor counter, Hub resources and values, json push handler
subscriptions, periodic-sensor callback targets) is threaded explicitly,
and every externally visible action (callback invocation, Hub push,
resource creation, handler subscription) is recorded in an event trace.
External Legato library calls (json_Extract, le_utf8_Copy, the Data Hub
io API, the periodicSensor component, le_mem pools) are modelled from
their documented behaviour, since their sources are not part of this
repository.
-/

namespace SensorFw

/-- Result codes of the Legato le_result_t enum, restricted to the values
the sensor framework code produces or tests. -/
inductive le_result_t where
  | LE_OK
  | LE_NOT_FOUND
  | LE_OVERFLOW
  | LE_FAULT
  | LE_DUPLICATE
  deriving DecidableEq, Repr

/-- Data types of the Data Hub io API (io_DataType_t).  The io.api
interface also has a trigger kind, which the PushData switch in
sensorFw.c does not handle (it falls into the default branch). -/
inductive io_DataType_t where
  | trigger
  | boolean
  | numeric
  | string
  | json
  deriving DecidableEq, Repr

/-- Payload kinds of the sensorfwDataType_t enum from sensorFw.h.  A C
enum variable can hold an integer outside the declared enumerators; the
extra constructor SF_CB_INVALID stands for any such out-of-range value,
which the switch in sensorFw_RegisterCallback sends to its default
branch. -/
inductive sensorfwDataType_t where
  | SF_CB_NUMERIC
  | SF_CB_STRING
  | SF_CB_BOOLEAN
  | SF_CB_JSON
  | SF_CB_INVALID
  deriving DecidableEq, Repr

/-- Mapping performed by the switch statement in sensorFw_RegisterCallback:
each valid payload kind selects the io data type stored in info.type;
an out-of-range kind hits the default branch (none). -/
def sfTypeToIo : sensorfwDataType_t → Option io_DataType_t
  | .SF_CB_NUMERIC => some .numeric
  | .SF_CB_STRING => some .string
  | .SF_CB_BOOLEAN => some .boolean
  | .SF_CB_JSON => some .json
  | .SF_CB_INVALID => none

/-- Values pushed to the Data Hub.  The C double carried by numeric
samples is modelled by an integer carrier; the framework only transports
the value from the callback output buffer to the push call, so the
carrier type does not affect any dispatch behaviour. -/
inductive SampleValue where
  | boolean (b : Bool)
  | numeric (x : Int)
  | string (s : String)
  | json (s : String)
  deriving DecidableEq, Repr

/-- Behaviour of the sample callback stored in the sensorfwCallbacks_t
union.  The C union holds a single function pointer that the framework
always invokes at the signature matching info.type; the behaviour record
gives, per plugin context, the result code and the value the callback
writes into its output buffer for each possible signature.  Only the
component matching the registered payload kind is ever observed. -/
structure SampleBehaviour where
  result : Nat → le_result_t
  boolVal : Nat → Bool
  numVal : Nat → Int
  strVal : Nat → String
  jsonVal : Nat → String

/-- Value written by the sample callback when invoked at the given data
kind, as used by the corresponding push call in PushData. -/
def sampleValueOf (b : SampleBehaviour) (t : io_DataType_t) (ctx : Nat) : SampleValue :=
  match t with
  | .boolean => .boolean (b.boolVal ctx)
  | .numeric => .numeric (b.numVal ctx)
  | .string => .string (b.strVal ctx)
  | .json => .json (b.jsonVal ctx)
  | .trigger => .json ""

/-- Callbacks supplied by a plugin (sensorfwCallbacks_t).  configCb is a
nullable function pointer: given the json text buffer content (empty when
the framework asks the plugin to read its configuration, the incoming
document when the Data Hub reports an external edit) and the plugin
context, it returns a result code and the final buffer content.  The
infoCb member of the C struct is never read or copied by the framework
and is omitted. -/
structure sensorfwCallbacks_t where
  configCb : Option (String → Nat → le_result_t × String)
  sample : SampleBehaviour

/-- Parsed sensor metadata (sensorInfo_t in sensorFw.c). -/
structure sensorInfo_t where
  sensorId : Nat
  name : String
  path : String
  isReadOnce : Bool
  unit : String
  type : io_DataType_t
  sensorRef : Option Nat

/-- A registered sensor entry (sensorHandler_t in sensorFw.c). -/
structure sensorHandler_t where
  info : sensorInfo_t
  callbacks : sensorfwCallbacks_t
  pluginContextPtr : Nat

/-- Default sampling period pushed to the period resource of every
periodic sensor (DEFAULT_SAMPLING_PERIOD_SEC). -/
def DEFAULT_SAMPLING_PERIOD_SEC : Int := 60

/-- Maximum bytes of the sensor name buffer (MAX_RESOURCE_NAME_LEN). -/
def MAX_RESOURCE_NAME_LEN : Nat := 20

/-- Modelled from the spec: the Data Hub io.api resource path length
constant used for the path buffer of sensorInfo_t; the io.api header is
not part of this repository.  A string fits the buffer when its length is
strictly below the constant (one byte is the terminator). -/
def IO_MAX_RESOURCE_PATH_LEN : Nat := 79

/-- Modelled from the spec: the Data Hub io.api units name length
constant used for the unit buffer of sensorInfo_t; the io.api header is
not part of this repository. -/
def IO_MAX_UNITS_NAME_LEN : Nat := 23

/-- Capacity of the statically defined sensor handler pool, from
config.h: 100 when LE_CONFIG_REDUCE_FOOTPRINT is set, 1000 otherwise. -/
def SENSOR_HANDLER_POOL_SIZE (reduceFootprint : Bool) : Nat :=
  if reduceFootprint then 100 else 1000

/-- A descriptor document, abstracting the JSON text handed to
sensorFw_RegisterCallback: a finite association of field names to the
text that json_Extract would return for that field.  Missing keys model
fields absent from the document. -/
abbrev jsonDesc := List (String × String)

/-- Lookup of a field in a descriptor document. -/
def lookupField : jsonDesc → String → Option String
  | [], _ => none
  | (k, v) :: rest, f => if k = f then some v else lookupField rest f

/-- Modelled from the spec: the Legato json_Extract library call (json.h,
not part of this repository).  Extraction of a field succeeds when the
field is present and its text fits the caller buffer of the given size
(strictly below, one byte for the terminator); a missing field reports
LE_NOT_FOUND and an oversized value LE_OVERFLOW. -/
def json_Extract (bufferSize : Nat) (desc : jsonDesc) (field : String) :
    le_result_t × String :=
  match lookupField desc field with
  | none => (.LE_NOT_FOUND, "")
  | some v => if v.length < bufferSize then (.LE_OK, v) else (.LE_OVERFLOW, "")

/-- Modelled from the spec: the Legato le_utf8_Copy library call (le_utf8,
not part of this repository).  Copies the source into a destination
buffer of the given byte size; when the source does not fit it stores a
truncated copy and reports LE_OVERFLOW. -/
def le_utf8_Copy (destSize : Nat) (src : String) : le_result_t × String :=
  if src.length < destSize then (.LE_OK, src)
  else (.LE_OVERFLOW, src.take (destSize - 1))

/-- Modelled from the spec: the Legato json_ConvertToBoolean library call
(json.h, not part of this repository); some fixed total conversion of the
extracted text to a boolean.  No claim depends on its exact value. -/
def json_ConvertToBoolean (s : String) : Bool := s = "true"

/-- Result of parsing a descriptor: the fields of sensorInfo_t that
ParseSensorInfo fills in (name, path, isReadOnce, unit). -/
structure parsedSensorInfo where
  name : String
  path : String
  isReadOnce : Bool
  unit : String
  deriving DecidableEq, Repr

/-- ParseSensorInfo from sensorFw.c: extracts name, path, readOnce and
unit in that order; name, path and unit are required and each must
survive both the 128-byte extraction buffer and the le_utf8_Copy into its
destination field; readOnce is optional and defaults to false when its
extraction fails. -/
def ParseSensorInfo (desc : jsonDesc) : Option parsedSensorInfo :=
  let en := json_Extract 128 desc "name"
  if en.1 = .LE_OK then
    let cn := le_utf8_Copy MAX_RESOURCE_NAME_LEN en.2
    if cn.1 = .LE_OK then
      let ep := json_Extract 128 desc "path"
      if ep.1 = .LE_OK then
        let cp := le_utf8_Copy IO_MAX_RESOURCE_PATH_LEN ep.2
        if cp.1 = .LE_OK then
          let er := json_Extract 128 desc "readOnce"
          let ro := if er.1 = .LE_OK then json_ConvertToBoolean er.2 else false
          let eu := json_Extract 128 desc "unit"
          if eu.1 = .LE_OK then
            let cu := le_utf8_Copy IO_MAX_UNITS_NAME_LEN eu.2
            if cu.1 = .LE_OK then
              some { name := cn.2, path := cp.2, isReadOnce := ro, unit := cu.2 }
            else none
          else none
        else none
      else none
    else none
  else none

/-- Observable events of a framework operation, in program order. -/
inductive Event where
  | sampleCbInvoked (kind : io_DataType_t) (ctx : Nat)
  | configCbInvoked (arg : String) (ctx : Nat)
  | ioPush (path : String) (v : SampleValue)
  | psensorPush (ref : Option Nat) (path : String) (v : SampleValue)
  | ioCreateInput (path : String) (t : io_DataType_t) (unit : String)
  | ioCreateOutput (path : String) (t : io_DataType_t) (unit : String)
  | psensorCreated (ref : Nat) (path : String) (t : io_DataType_t) (unit : String)
  | jsonHandlerAdded (path : String)
  deriving DecidableEq, Repr

/-- Results of the Hub bridge calls made during registration, supplied by
the environment: the result of io_CreateInput and io_CreateOutput at a
path, and whether psensor_Create returns NULL. -/
structure HubEnv where
  createInput : String → le_result_t
  createOutput : String → le_result_t
  psensorCreateFails : String → Bool

/-- State of the framework together with the Hub resources it has
created.  poolAllocated counts the blocks currently allocated from
SensorHandlerPool (le_mem_ForceAlloc balance against le_mem_Release);
hubValues is the last pushed value per Hub path; jsonHandlers the json
push handler subscriptions installed with io_AddJsonPushHandler;
periodicTargets maps each periodic sensor reference to the entry
registered as its sampling callback target. -/
structure FwState where
  poolAllocated : Nat
  registeredSensorCount : Nat
  hubValues : List (String × SampleValue)
  hubInputs : List (String × io_DataType_t × String)
  hubOutputs : List (String × io_DataType_t × String)
  jsonHandlers : List (String × sensorHandler_t)
  periodicTargets : List (Nat × sensorHandler_t)
  nextPsensorRef : Nat

/-- Update of the stored Hub value at a path (insert or replace). -/
def setValue (path : String) (v : SampleValue) :
    List (String × SampleValue) → List (String × SampleValue)
  | [] => [(path, v)]
  | (p, w) :: rest =>
      if p = path then (p, v) :: rest else (p, w) :: setValue path v rest

/-- Lookup of the stored Hub value at a path. -/
def lookupValue : List (String × SampleValue) → String → Option SampleValue
  | [], _ => none
  | (p, v) :: rest, path => if p = path then some v else lookupValue rest path

/-- Last pushed Hub value at a path. -/
def valueAt (st : FwState) (path : String) : Option SampleValue :=
  lookupValue st.hubValues path

/-- Lookup of the callback target registered for a periodic sensor
reference. -/
def lookupTarget : List (Nat × sensorHandler_t) → Nat → Option sensorHandler_t
  | [], _ => none
  | (r, h) :: rest, ref => if r = ref then some h else lookupTarget rest ref

/-- Outcome of an operation that contains LE_ASSERT checks: either a
normal return value, or fatal, modelling a failed LE_ASSERT that kills
the host process (the call never returns). -/
inductive Outcome (α : Type) where
  | ok (a : α)
  | fatal

/-- PushData from sensorFw.c: selects the sample callback matching the
stored data type, invokes it, and on success pushes the sampled value to
the Hub at the entry path, directly (io_Push) for a read-once entry and
through the periodic sensor (psensor_Push) otherwise; on callback failure
it returns LE_FAULT without pushing.  A data type outside the four
handled kinds falls into the default branch, which only logs and then
returns LE_OK. -/
def PushData (h : sensorHandler_t) (st : FwState) :
    le_result_t × FwState × List Event :=
  let ctx := h.pluginContextPtr
  match h.info.type with
  | .boolean =>
      if h.callbacks.sample.result ctx = .LE_OK then
        let v := SampleValue.boolean (h.callbacks.sample.boolVal ctx)
        if h.info.isReadOnce then
          (.LE_OK, { st with hubValues := setValue h.info.path v st.hubValues },
            [.sampleCbInvoked .boolean ctx, .ioPush h.info.path v])
        else
          (.LE_OK, { st with hubValues := setValue h.info.path v st.hubValues },
            [.sampleCbInvoked .boolean ctx, .psensorPush h.info.sensorRef h.info.path v])
      else (.LE_FAULT, st, [.sampleCbInvoked .boolean ctx])
  | .numeric =>
      if h.callbacks.sample.result ctx = .LE_OK then
        let v := SampleValue.numeric (h.callbacks.sample.numVal ctx)
        if h.info.isReadOnce then
          (.LE_OK, { st with hubValues := setValue h.info.path v st.hubValues },
            [.sampleCbInvoked .numeric ctx, .ioPush h.info.path v])
        else
          (.LE_OK, { st with hubValues := setValue h.info.path v st.hubValues },
            [.sampleCbInvoked .numeric ctx, .psensorPush h.info.sensorRef h.info.path v])
      else (.LE_FAULT, st, [.sampleCbInvoked .numeric ctx])
  | .string =>
      if h.callbacks.sample.result ctx = .LE_OK then
        let v := SampleValue.string (h.callbacks.sample.strVal ctx)
        if h.info.isReadOnce then
          (.LE_OK, { st with hubValues := setValue h.info.path v st.hubValues },
            [.sampleCbInvoked .string ctx, .ioPush h.info.path v])
        else
          (.LE_OK, { st with hubValues := setValue h.info.path v st.hubValues },
            [.sampleCbInvoked .string ctx, .psensorPush h.info.sensorRef h.info.path v])
      else (.LE_FAULT, st, [.sampleCbInvoked .string ctx])
  | .json =>
      if h.callbacks.sample.result ctx = .LE_OK then
        let v := SampleValue.json (h.callbacks.sample.jsonVal ctx)
        if h.info.isReadOnce then
          (.LE_OK, { st with hubValues := setValue h.info.path v st.hubValues },
            [.sampleCbInvoked .json ctx, .ioPush h.info.path v])
        else
          (.LE_OK, { st with hubValues := setValue h.info.path v st.hubValues },
            [.sampleCbInvoked .json ctx, .psensorPush h.info.sensorRef h.info.path v])
      else (.LE_FAULT, st, [.sampleCbInvoked .json ctx])
  | .trigger => (.LE_OK, st, [])

/-- PushConfig from sensorFw.c: invokes the config callback with an empty
buffer (a configuration read) and on success pushes the returned JSON to
the config companion path of the entry; on callback failure it returns
LE_FAULT without pushing.  The none branch models the null function
pointer, which the C would dereference; both callers guard against it. -/
def PushConfig (h : sensorHandler_t) (st : FwState) :
    le_result_t × FwState × List Event :=
  match h.callbacks.configCb with
  | none => (.LE_FAULT, st, [])
  | some cb =>
      let resourcePath := h.info.path ++ "/config"
      if (cb "" h.pluginContextPtr).1 = .LE_OK then
        (.LE_OK,
          { st with hubValues :=
              setValue resourcePath (.json (cb "" h.pluginContextPtr).2) st.hubValues },
          [.configCbInvoked "" h.pluginContextPtr,
           .ioPush resourcePath (.json (cb "" h.pluginContextPtr).2)])
      else (.LE_FAULT, st, [.configCbInvoked "" h.pluginContextPtr])

/-- ConfigUpdateHandler from sensorFw.c: fired by the Data Hub when an
external actor pushes JSON to the config companion path; re-invokes the
config callback of the stored entry, passing the incoming JSON text
verbatim and the stored plugin context, and ignores the result.  The
handler is only ever subscribed for entries whose configCb is non-null. -/
def ConfigUpdateHandler (jsonStringPtr : String) (h : sensorHandler_t)
    (st : FwState) : FwState × List Event :=
  match h.callbacks.configCb with
  | none => (st, [])
  | some cb =>
      let _ := cb jsonStringPtr h.pluginContextPtr
      (st, [.configCbInvoked jsonStringPtr h.pluginContextPtr])

/-- AddDataHubEntry from sensorFw.c.  For a read-once entry: clears the
periodic reference, calls io_CreateInput and asserts the result is LE_OK
or LE_DUPLICATE (any other result makes LE_ASSERT kill the process).  For
a periodic entry: calls psensor_Create (asserting the reference is not
NULL), which registers the entry as the sampling callback target, then
pushes true to the enable companion resource and the default period to
the period companion resource.  Both branches end with one immediate
PushData whose result is ignored. -/
def AddDataHubEntry (env : HubEnv) (h : sensorHandler_t) (st : FwState) :
    Outcome (sensorHandler_t × FwState × List Event) :=
  if h.info.isReadOnce then
    let h2 := { h with info := { h.info with sensorRef := none } }
    let result := env.createInput h.info.path
    if result = .LE_OK ∨ result = .LE_DUPLICATE then
      let st1 :=
        if result = .LE_OK then
          { st with hubInputs := (h.info.path, h.info.type, h.info.unit) :: st.hubInputs }
        else st
      let pd := PushData h2 st1
      Outcome.ok (h2, pd.2.1,
        .ioCreateInput h.info.path h.info.type h.info.unit :: pd.2.2)
    else Outcome.fatal
  else
    if env.psensorCreateFails h.info.path then Outcome.fatal
    else
      let ref := st.nextPsensorRef
      let h2 := { h with info := { h.info with sensorRef := some ref } }
      let st1 := { st with
        nextPsensorRef := ref + 1
        periodicTargets := (ref, h2) :: st.periodicTargets
        hubInputs := (h.info.path, h.info.type, h.info.unit) :: st.hubInputs }
      let st2 := { st1 with
        hubValues := setValue (h.info.path ++ "/enable") (.boolean true) st1.hubValues }
      let st3 := { st2 with
        hubValues := setValue (h.info.path ++ "/period")
          (.numeric DEFAULT_SAMPLING_PERIOD_SEC) st2.hubValues }
      let pd := PushData h2 st3
      Outcome.ok (h2, pd.2.1,
        .psensorCreated ref h.info.path h.info.type h.info.unit
          :: .ioPush (h.info.path ++ "/enable") (.boolean true)
          :: .ioPush (h.info.path ++ "/period") (.numeric DEFAULT_SAMPLING_PERIOD_SEC)
          :: pd.2.2)

/-- sensorFw_RegisterCallback from sensorFw.c.  Allocates a pool block
with le_mem_ForceAlloc (which never fails: it expands the pool when
exhausted), parses the descriptor, releasing the block and returning
LE_FAULT on parse failure; an out-of-range payload kind returns LE_FAULT
from the switch default branch without releasing the block.  Otherwise it
fills in the entry, creates the Hub resources through AddDataHubEntry,
increments the registered-sensor count, and for a periodic entry with a
non-null config callback creates the config companion output (asserting
LE_OK or LE_DUPLICATE), performs one PushConfig whose result is ignored,
and subscribes ConfigUpdateHandler at the config companion path. -/
def sensorFw_RegisterCallback (env : HubEnv) (desc : jsonDesc)
    (type : sensorfwDataType_t) (cbPtr : sensorfwCallbacks_t)
    (contextPtr : Nat) (st : FwState) :
    Outcome (le_result_t × Option sensorHandler_t × FwState × List Event) :=
  let st0 := { st with poolAllocated := st.poolAllocated + 1 }
  match ParseSensorInfo desc with
  | none =>
      Outcome.ok (.LE_FAULT, none,
        { st0 with poolAllocated := st0.poolAllocated - 1 }, [])
  | some parsed =>
      match sfTypeToIo type with
      | none => Outcome.ok (.LE_FAULT, none, st0, [])
      | some ioType =>
          let h : sensorHandler_t :=
            { info := { sensorId := st0.registeredSensorCount, name := parsed.name,
                        path := parsed.path, isReadOnce := parsed.isReadOnce,
                        unit := parsed.unit, type := ioType, sensorRef := none }
              callbacks := { configCb := cbPtr.configCb, sample := cbPtr.sample }
              pluginContextPtr := contextPtr }
          match AddDataHubEntry env h st0 with
          | .fatal => .fatal
          | .ok (h2, st1, tr1) =>
              let st2 := { st1 with
                registeredSensorCount := st1.registeredSensorCount + 1 }
              if h2.info.isReadOnce = false ∧ cbPtr.configCb.isSome then
                let resourcePath := h2.info.path ++ "/config"
                let result := env.createOutput resourcePath
                if result = .LE_OK ∨ result = .LE_DUPLICATE then
                  let st3 :=
                    if result = .LE_OK then
                      { st2 with hubOutputs :=
                          (resourcePath, io_DataType_t.json, "") :: st2.hubOutputs }
                    else st2
                  let pc := PushConfig h2 st3
                  let st4 := { pc.2.1 with
                    jsonHandlers := (resourcePath, h2) :: pc.2.1.jsonHandlers }
                  Outcome.ok (.LE_OK, some h2, st4,
                    tr1 ++ Event.ioCreateOutput resourcePath .json ""
                      :: pc.2.2 ++ [.jsonHandlerAdded resourcePath])
                else Outcome.fatal
              else Outcome.ok (.LE_OK, some h2, st2, tr1)

/-- sensorFw_PushSample from sensorFw.c: a null handler is rejected with
LE_FAULT, otherwise the entry is sampled and pushed through PushData. -/
def sensorFw_PushSample (handlerPtr : Option sensorHandler_t) (st : FwState) :
    le_result_t × FwState × List Event :=
  match handlerPtr with
  | none => (.LE_FAULT, st, [])
  | some h => PushData h st

/-- SampleSensor from sensorFw.c: the periodic tick callback handed to
psensor_Create; a null context is rejected, otherwise it dispatches
PushData on the stored entry. -/
def SampleSensor (contextPtr : Option sensorHandler_t) (st : FwState) :
    FwState × List Event :=
  match contextPtr with
  | none => (st, [])
  | some h =>
      let pd := PushData h st
      (pd.2.1, pd.2.2)

/-- Modelled from the spec: a periodic tick of the external scheduler for
a given periodic sensor reference invokes the registered sampling
callback target. -/
def PeriodicTick (ref : Nat) (st : FwState) : FwState × List Event :=
  match lookupTarget st.periodicTargets ref with
  | none => (st, [])
  | some h => SampleSensor (some h) st

/-- Modelled from the spec: an externally initiated JSON push to a Hub
path updates the stored value there and fires every json push handler
subscribed at that path, in order, with the pushed JSON text. -/
def fireHandlers (path json : String) :
    List (String × sensorHandler_t) → FwState → FwState × List Event
  | [], st => (st, [])
  | (p, h) :: rest, st =>
      if p = path then
        let r1 := ConfigUpdateHandler json h st
        let r2 := fireHandlers path json rest r1.1
        (r2.1, r1.2 ++ r2.2)
      else fireHandlers path json rest st

/-- Modelled from the spec: an external JSON push to a Hub path. -/
def ExternalConfigPush (path json : String) (st : FwState) :
    FwState × List Event :=
  let st1 := { st with hubValues := setValue path (.json json) st.hubValues }
  let r := fireHandlers path json st.jsonHandlers st1
  (r.1, r.2)

/-- Initial framework state: nothing registered, empty Hub. -/
def initState : FwState :=
  { poolAllocated := 0, registeredSensorCount := 0, hubValues := [],
    hubInputs := [], hubOutputs := [], jsonHandlers := [],
    periodicTargets := [], nextPsensorRef := 0 }

/-- Environment in which every Hub bridge call succeeds. -/
def allOkEnv : HubEnv :=
  { createInput := fun _ => .LE_OK, createOutput := fun _ => .LE_OK,
    psensorCreateFails := fun _ => false }

/-- Repeated registration of the same descriptor: returns the results of
the first n registrations in order and the final state.  A fatal outcome
aborts the run, truncating the result list. -/
def registerMany (env : HubEnv) (desc : jsonDesc) (type : sensorfwDataType_t)
    (cbPtr : sensorfwCallbacks_t) (contextPtr : Nat) :
    Nat → FwState → List le_result_t × FwState
  | 0, st => ([], st)
  | n + 1, st =>
      match sensorFw_RegisterCallback env desc type cbPtr contextPtr st with
      | .fatal => ([], st)
      | .ok (r, _, st1, _) =>
          let rest := registerMany env desc type cbPtr contextPtr n st1
          (r :: rest.1, rest.2)

/-- Test of an event being an invocation of a sample callback. -/
def isSampleInvocation : Event → Bool
  | .sampleCbInvoked _ _ => true
  | _ => false

/-- Test of an event being an invocation of a config callback. -/
def isConfigInvocation : Event → Bool
  | .configCbInvoked _ _ => true
  | _ => false

/-- Test of an event being a Hub push (direct or through the periodic
sensor) at the given path. -/
def isPushAt (path : String) : Event → Bool
  | .ioPush p _ => p = path
  | .psensorPush _ p _ => p = path
  | _ => false

/-- Test of an event being any Hub push. -/
def isPush : Event → Bool
  | .ioPush _ _ => true
  | .psensorPush _ _ _ => true
  | _ => false

/-- Values pushed to the Hub at the given path during a trace, in
order. -/
def pushedValuesAt (path : String) (tr : List Event) : List SampleValue :=
  tr.filterMap fun e =>
    match e with
    | .ioPush p v => if p = path then some v else none
    | .psensorPush _ p v => if p = path then some v else none
    | _ => none

/-- Subtrace of the events that make up a sample-and-push at the given
path: sample callback invocations and Hub pushes at the path. -/
def sampleEventsAt (path : String) (tr : List Event) : List Event :=
  tr.filter fun e => isSampleInvocation e || isPushAt path e

/-- Test of an event being a psensor_Create. -/
def isPsensorCreate : Event → Bool
  | .psensorCreated _ _ _ _ => true
  | _ => false

/-- Test of an event being an io_CreateInput. -/
def isIoCreateInput : Event → Bool
  | .ioCreateInput _ _ _ => true
  | _ => false

/-- Presence of a field in a descriptor with a value that fits both the
128-byte extraction buffer and a destination buffer of the given size. -/
def fieldFits (desc : jsonDesc) (field : String) (destSize : Nat) : Prop :=
  ∃ v, lookupField desc field = some v ∧ v.length < 128 ∧ v.length < destSize

/-- Proposition that a registration outcome is a normal LE_OK return with
an entry, satisfying the given property of the entry, final state and
trace. -/
def RegisterReturnsOk
    (out : Outcome (le_result_t × Option sensorHandler_t × FwState × List Event))
    (P : sensorHandler_t → FwState → List Event → Prop) : Prop :=
  match out with
  | .ok (.LE_OK, some h, st, tr) => P h st tr
  | _ => False

/-- Concrete valid descriptor used by witnesses: periodic (readOnce
absent). -/
def desc0 : jsonDesc := [("name", "temp"), ("path", "room/temp"), ("unit", "C")]

/-- Concrete valid read-once descriptor used by witnesses. -/
def descRO : jsonDesc :=
  [("name", "temp"), ("path", "room/temp"), ("readOnce", "true"), ("unit", "C")]

/-- Concrete descriptor with no path field, used by witnesses. -/
def descNoPath : jsonDesc := [("name", "temp"), ("unit", "C")]

/-- Concrete callback set used by witnesses: every sample succeeds with
fixed values, the config callback succeeds and reports a fixed
document. -/
def cb0 : sensorfwCallbacks_t :=
  { configCb := some fun _ _ => (.LE_OK, "cfg-doc")
    sample :=
      { result := fun _ => .LE_OK, boolVal := fun _ => true,
        numVal := fun _ => 42, strVal := fun _ => "s", jsonVal := fun _ => "j" } }

/-- Concrete callback set whose sample and config callbacks always fail,
used by witnesses. -/
def cbFail : sensorfwCallbacks_t :=
  { configCb := some fun _ _ => (.LE_FAULT, "")
    sample :=
      { result := fun _ => .LE_FAULT, boolVal := fun _ => true,
        numVal := fun _ => 42, strVal := fun _ => "s", jsonVal := fun _ => "j" } }


/-- Effective readOnce flag computed by ParseSensorInfo: the converted
value of the readOnce field when its extraction succeeds, false
otherwise. -/
def readOnceOf (desc : jsonDesc) : Bool :=
  match lookupField desc "readOnce" with
  | some r => if r.length < 128 then json_ConvertToBoolean r else false
  | none => false

/-- Value sampled by the callback of an entry at its own payload kind and
context. -/
def sampledValue (h : sensorHandler_t) : SampleValue :=
  sampleValueOf h.callbacks.sample h.info.type h.pluginContextPtr

/-- Push event emitted by PushData for an entry on a successful sample. -/
def pushEventOf (h : sensorHandler_t) (v : SampleValue) : Event :=
  if h.info.isReadOnce then Event.ioPush h.info.path v
  else Event.psensorPush h.info.sensorRef h.info.path v

/-- Entry with its periodic sensor reference replaced. -/
def withRef (h : sensorHandler_t) (r : Option Nat) : sensorHandler_t :=
  { h with info := { h.info with sensorRef := r } }

/-- Trace of one ConfigUpdateHandler invocation. -/
def cuhTrace (json : String) (h : sensorHandler_t) : List Event :=
  match h.callbacks.configCb with
  | none => []
  | some _ => [Event.configCbInvoked json h.pluginContextPtr]

/-- Sequence of config callback invocations fired by an external JSON
push at a path, over a subscription list. -/
def firedTrace (path json : String) : List (String × sensorHandler_t) → List Event
  | [] => []
  | (p, h) :: rest =>
      if p = path then cuhTrace json h ++ firedTrace path json rest
      else firedTrace path json rest

/-- Concrete handler used by witnesses: a read-once numeric entry whose
callbacks always fail. -/
def hFail : sensorHandler_t :=
  { info := { sensorId := 0, name := "temp", path := "room/temp",
              isReadOnce := true, unit := "C", type := .numeric, sensorRef := none }
    callbacks := cbFail
    pluginContextPtr := 7 }

/-- Concrete handler used by witnesses whose stored data type is the
trigger kind, outside the four payload kinds of the PushData switch. -/
def hTrig : sensorHandler_t :=
  { info := { sensorId := 0, name := "temp", path := "room/temp",
              isReadOnce := true, unit := "C", type := .trigger, sensorRef := none }
    callbacks := cb0
    pluginContextPtr := 7 }

/-- Hub environment whose io_CreateInput always fails with LE_FAULT. -/
def envBadCreate : HubEnv :=
  { createInput := fun _ => .LE_FAULT, createOutput := fun _ => .LE_OK,
    psensorCreateFails := fun _ => false }

/-- Descriptor whose name value has 25 characters, longer than the
20-byte name buffer of sensorInfo_t. -/
def descLongName : jsonDesc :=
  [("name", "aaaaaaaaaaaaaaaaaaaaaaaaa"), ("path", "room/temp"), ("unit", "C")]

end SensorFw

namespace SensorFw

theorem append_left_inj (p a b : String) : (p ++ a = p ++ b) ↔ a = b := by
  constructor
  · intro he
    have hd := congrArg String.data he
    rw [String.data_append, String.data_append] at hd
    exact String.ext (List.append_cancel_left hd)
  · intro he; rw [he]

theorem append_eq_self_iff (p a : String) : (p ++ a = p) ↔ a = "" := by
  constructor
  · intro he
    have hl : (p ++ a).length = p.length := by rw [he]
    rw [String.length_append] at hl
    have h0 : a.length = 0 := by omega
    cases a with
    | mk data =>
      cases data with
      | nil => rfl
      | cons c cs => simp [String.length] at h0
  · intro he; simp [he]

theorem self_eq_append_iff (p a : String) : (p = p ++ a) ↔ a = "" := by
  rw [eq_comm, append_eq_self_iff]

theorem jx_none {desc : jsonDesc} {f : String} (n : Nat)
    (h : lookupField desc f = none) : json_Extract n desc f = (.LE_NOT_FOUND, "") := by
  simp [json_Extract, h]

theorem jx_lt {desc : jsonDesc} {f v : String} {n : Nat}
    (h : lookupField desc f = some v) (hl : v.length < n) :
    json_Extract n desc f = (.LE_OK, v) := by
  simp [json_Extract, h, hl]

theorem jx_ge {desc : jsonDesc} {f v : String} {n : Nat}
    (h : lookupField desc f = some v) (hl : ¬ v.length < n) :
    json_Extract n desc f = (.LE_OVERFLOW, "") := by
  simp [json_Extract, h, hl]

theorem cp_lt {s : String} {n : Nat} (h : s.length < n) :
    le_utf8_Copy n s = (.LE_OK, s) := by
  simp [le_utf8_Copy, h]

theorem cp_ge {s : String} {n : Nat} (h : ¬ s.length < n) :
    le_utf8_Copy n s = (.LE_OVERFLOW, s.take (n - 1)) := by
  simp [le_utf8_Copy, h]


theorem ro_eq (desc : jsonDesc) :
    (if (json_Extract 128 desc "readOnce").1 = .LE_OK
     then json_ConvertToBoolean (json_Extract 128 desc "readOnce").2 else false)
      = readOnceOf desc := by
  unfold readOnceOf
  rcases h : lookupField desc "readOnce" with _ | v
  · simp [jx_none 128 h]
  · by_cases hl : v.length < 128
    · simp [jx_lt h hl, hl]
    · simp [jx_ge h hl, hl]

theorem ro_eq2 (desc : jsonDesc) :
    (decide ((json_Extract 128 desc "readOnce").1 = le_result_t.LE_OK) &&
      json_ConvertToBoolean (json_Extract 128 desc "readOnce").2) = readOnceOf desc := by
  unfold readOnceOf
  rcases h : lookupField desc "readOnce" with _ | v
  · simp [jx_none 128 h]
  · by_cases hl : v.length < 128
    · simp [jx_lt h hl, hl]
    · simp [jx_ge h hl, hl]

theorem parse_char (desc : jsonDesc) :
    ParseSensorInfo desc =
      match lookupField desc "name" with
      | none => none
      | some vn =>
        if vn.length < MAX_RESOURCE_NAME_LEN then
          match lookupField desc "path" with
          | none => none
          | some vp =>
            if vp.length < IO_MAX_RESOURCE_PATH_LEN then
              match lookupField desc "unit" with
              | none => none
              | some vu =>
                if vu.length < IO_MAX_UNITS_NAME_LEN then
                  some { name := vn, path := vp, isReadOnce := readOnceOf desc, unit := vu }
                else none
            else none
        else none := by
  have e20 : MAX_RESOURCE_NAME_LEN = 20 := rfl
  have e79 : IO_MAX_RESOURCE_PATH_LEN = 79 := rfl
  have e23 : IO_MAX_UNITS_NAME_LEN = 23 := rfl
  unfold ParseSensorInfo
  rcases hn : lookupField desc "name" with _ | vn
  · simp [jx_none 128 hn]
  · by_cases h1 : vn.length < MAX_RESOURCE_NAME_LEN
    · have h1' : vn.length < 128 := by omega
      rw [jx_lt hn h1']
      simp only [cp_lt h1]
      rcases hp : lookupField desc "path" with _ | vp
      · simp [jx_none 128 hp, h1]
      · by_cases h2 : vp.length < IO_MAX_RESOURCE_PATH_LEN
        · have h2' : vp.length < 128 := by omega
          rw [jx_lt hp h2']
          simp only [cp_lt h2]
          rcases hu : lookupField desc "unit" with _ | vu
          · simp [jx_none 128 hu, h1, h2]
          · by_cases h3 : vu.length < IO_MAX_UNITS_NAME_LEN
            · have h3' : vu.length < 128 := by omega
              rw [jx_lt hu h3']
              simp only [cp_lt h3]
              simp [h1, h2, h3, ro_eq2]
            · by_cases h3' : vu.length < 128
              · rw [jx_lt hu h3']
                simp [cp_ge h3, h1, h2, h3]
              · rw [jx_ge hu h3']
                simp [h1, h2, h3]
        · by_cases h2' : vp.length < 128
          · rw [jx_lt hp h2']
            simp [cp_ge h2, h1, h2]
          · rw [jx_ge hp h2']
            simp [h1, h2]
    · by_cases h1' : vn.length < 128
      · rw [jx_lt hn h1']
        simp [cp_ge h1, h1]
      · rw [jx_ge hn h1']
        simp [h1]


theorem parse_some_iff (desc : jsonDesc) (p : parsedSensorInfo) :
    ParseSensorInfo desc = some p ↔
      ∃ vn vp vu,
        lookupField desc "name" = some vn ∧ vn.length < MAX_RESOURCE_NAME_LEN ∧
        lookupField desc "path" = some vp ∧ vp.length < IO_MAX_RESOURCE_PATH_LEN ∧
        lookupField desc "unit" = some vu ∧ vu.length < IO_MAX_UNITS_NAME_LEN ∧
        p = { name := vn, path := vp, isReadOnce := readOnceOf desc, unit := vu } := by
  rw [parse_char]
  rcases hn : lookupField desc "name" with _ | vn <;>
    rcases hp : lookupField desc "path" with _ | vp <;>
      rcases hu : lookupField desc "unit" with _ | vu <;>
        simp
  intro h1 h2 h3
  exact eq_comm

theorem parse_isSome_iff (desc : jsonDesc) :
    (ParseSensorInfo desc).isSome ↔
      fieldFits desc "name" MAX_RESOURCE_NAME_LEN ∧
      fieldFits desc "path" IO_MAX_RESOURCE_PATH_LEN ∧
      fieldFits desc "unit" IO_MAX_UNITS_NAME_LEN := by
  have e20 : MAX_RESOURCE_NAME_LEN = 20 := rfl
  have e79 : IO_MAX_RESOURCE_PATH_LEN = 79 := rfl
  have e23 : IO_MAX_UNITS_NAME_LEN = 23 := rfl
  unfold fieldFits
  rw [parse_char]
  rcases hn : lookupField desc "name" with _ | vn <;>
    rcases hp : lookupField desc "path" with _ | vp <;>
      rcases hu : lookupField desc "unit" with _ | vu <;>
        simp <;> split_ifs <;> simp_all <;> omega





theorem PushData_ok (h : sensorHandler_t) (st : FwState)
    (hk : h.info.type ≠ .trigger)
    (hs : h.callbacks.sample.result h.pluginContextPtr = .LE_OK) :
    PushData h st =
      (.LE_OK,
        { st with hubValues := setValue h.info.path (sampledValue h) st.hubValues },
        [Event.sampleCbInvoked h.info.type h.pluginContextPtr,
         pushEventOf h (sampledValue h)]) := by
  rcases hk2 : h.info.type <;>
    simp_all [PushData, sampledValue, sampleValueOf, pushEventOf] <;>
    rcases hro : h.info.isReadOnce <;> simp_all

theorem PushData_fail (h : sensorHandler_t) (st : FwState)
    (hk : h.info.type ≠ .trigger)
    (hs : h.callbacks.sample.result h.pluginContextPtr ≠ .LE_OK) :
    PushData h st =
      (.LE_FAULT, st, [Event.sampleCbInvoked h.info.type h.pluginContextPtr]) := by
  rcases hk2 : h.info.type <;> simp_all [PushData]

theorem PushData_trigger (h : sensorHandler_t) (st : FwState)
    (hk : h.info.type = .trigger) :
    PushData h st = (.LE_OK, st, []) := by
  simp [PushData, hk]


theorem addEntry_readOnce (env : HubEnv) (h : sensorHandler_t) (st : FwState)
    (hro : h.info.isReadOnce = true)
    (hci : env.createInput h.info.path = .LE_OK ∨
           env.createInput h.info.path = .LE_DUPLICATE) :
    AddDataHubEntry env h st =
      let st1 :=
        if env.createInput h.info.path = .LE_OK then
          { st with hubInputs := (h.info.path, h.info.type, h.info.unit) :: st.hubInputs }
        else st
      let pd := PushData (withRef h none) st1
      Outcome.ok (withRef h none, pd.2.1,
        Event.ioCreateInput h.info.path h.info.type h.info.unit :: pd.2.2) := by
  rcases hci with hci | hci <;> simp [AddDataHubEntry, hro, hci, withRef]

theorem addEntry_periodic (env : HubEnv) (h : sensorHandler_t) (st : FwState)
    (hro : h.info.isReadOnce = false)
    (hps : env.psensorCreateFails h.info.path = false) :
    AddDataHubEntry env h st =
      let h2 := withRef h (some st.nextPsensorRef)
      let st3 := { st with
        nextPsensorRef := st.nextPsensorRef + 1
        periodicTargets := (st.nextPsensorRef, h2) :: st.periodicTargets
        hubInputs := (h.info.path, h.info.type, h.info.unit) :: st.hubInputs
        hubValues := setValue (h.info.path ++ "/period")
          (.numeric DEFAULT_SAMPLING_PERIOD_SEC)
          (setValue (h.info.path ++ "/enable") (.boolean true) st.hubValues) }
      let pd := PushData h2 st3
      Outcome.ok (h2, pd.2.1,
        Event.psensorCreated st.nextPsensorRef h.info.path h.info.type h.info.unit
          :: Event.ioPush (h.info.path ++ "/enable") (.boolean true)
          :: Event.ioPush (h.info.path ++ "/period") (.numeric DEFAULT_SAMPLING_PERIOD_SEC)
          :: pd.2.2) := by
  simp [AddDataHubEntry, hro, hps, withRef]


theorem ioType_ne_trigger {type : sensorfwDataType_t} {ioType : io_DataType_t}
    (h : sfTypeToIo type = some ioType) : ioType ≠ .trigger := by
  cases type <;> simp [sfTypeToIo] at h <;> subst h <;> simp

/-- Claim C1: for every valid descriptor and payload kind, when the Hub
bridge calls succeed and the sample callback succeeds,
sensorFw_RegisterCallback returns LE_OK, increases the registered-sensor
count by exactly one, and its trace restricted to sample-callback
invocations and pushes at the entry path is exactly one invocation of the
payload-kind-matching callback followed by one Hub push of the sampled
value, before returning. -/
theorem c1_register_immediate_sample_and_push (env : HubEnv) (desc : jsonDesc)
    (type : sensorfwDataType_t) (cbPtr : sensorfwCallbacks_t) (ctx : Nat)
    (st : FwState) (parsed : parsedSensorInfo) (ioType : io_DataType_t)
    (hparse : ParseSensorInfo desc = some parsed)
    (htype : sfTypeToIo type = some ioType)
    (hsample : cbPtr.sample.result ctx = .LE_OK)
    (hci : env.createInput parsed.path = .LE_OK ∨
           env.createInput parsed.path = .LE_DUPLICATE)
    (hps : env.psensorCreateFails parsed.path = false)
    (hco : env.createOutput (parsed.path ++ "/config") = .LE_OK ∨
           env.createOutput (parsed.path ++ "/config") = .LE_DUPLICATE) :
    RegisterReturnsOk (sensorFw_RegisterCallback env desc type cbPtr ctx st)
      (fun _ st1 tr =>
        st1.registeredSensorCount = st.registeredSensorCount + 1 ∧
        ∃ pushEvent, isPushAt parsed.path pushEvent = true ∧
          sampleEventsAt parsed.path tr =
            [Event.sampleCbInvoked ioType ctx, pushEvent] ∧
          pushedValuesAt parsed.path tr =
            [sampleValueOf cbPtr.sample ioType ctx]) := by
  have hnt := ioType_ne_trigger htype
  unfold sensorFw_RegisterCallback
  rw [hparse, htype]
  dsimp only
  rcases hro : parsed.isReadOnce with _ | _
  case false =>
    rw [addEntry_periodic env _ _ rfl hps]
    dsimp only [withRef]
    rw [PushData_ok _ _ hnt hsample]
    rcases hcb : cbPtr.configCb with _ | ccb
    · simp [hcb, hro, RegisterReturnsOk, sampleEventsAt, pushedValuesAt,
        isSampleInvocation, isPushAt, sampledValue, pushEventOf, sampleValueOf,
        append_eq_self_iff, self_eq_append_iff, append_left_inj]
    · by_cases hpc : (ccb "" ctx).1 = .LE_OK <;>
        rcases hco with hco | hco <;>
          simp [hcb, hro, hco, hpc, PushConfig, RegisterReturnsOk, sampleEventsAt,
            pushedValuesAt, isSampleInvocation, isPushAt, sampledValue, pushEventOf,
            sampleValueOf, append_eq_self_iff, self_eq_append_iff, append_left_inj]
  case true =>
    rw [addEntry_readOnce env _ _ rfl hci]
    dsimp only [withRef]
    rw [PushData_ok _ _ hnt hsample]
    rcases hci with hci | hci <;>
      simp [hro, hci, RegisterReturnsOk, sampleEventsAt, pushedValuesAt,
        isSampleInvocation, isPushAt, sampledValue, pushEventOf, sampleValueOf,
        append_eq_self_iff, self_eq_append_iff]


theorem register_parse_fail (env : HubEnv) (desc : jsonDesc)
    (type : sensorfwDataType_t) (cbPtr : sensorfwCallbacks_t) (ctx : Nat)
    (st : FwState) (h : ParseSensorInfo desc = none) :
    sensorFw_RegisterCallback env desc type cbPtr ctx st =
      .ok (.LE_FAULT, none, st, []) := by
  unfold sensorFw_RegisterCallback
  rw [h]
  dsimp only
  cases st
  simp

theorem parse_none_of_missing (desc : jsonDesc)
    (h : lookupField desc "name" = none ∨ lookupField desc "path" = none) :
    ParseSensorInfo desc = none := by
  rw [parse_char]
  rcases h with h | h
  · rw [h]
  · rcases hn : lookupField desc "name" with _ | vn
    · rfl
    · simp [h]

/-- Claim C6: the descriptor parse succeeds iff name, path and unit are
all present and fit the extraction buffer and their destination buffers;
a missing name or path makes registration return LE_FAULT with the state
(hence the registered count) unchanged; an absent readOnce field parses
as isReadOnce = false. -/
theorem c6_required_fields (env : HubEnv) (desc : jsonDesc)
    (type : sensorfwDataType_t) (cbPtr : sensorfwCallbacks_t) (ctx : Nat)
    (st : FwState) :
    ((ParseSensorInfo desc).isSome ↔
      fieldFits desc "name" MAX_RESOURCE_NAME_LEN ∧
      fieldFits desc "path" IO_MAX_RESOURCE_PATH_LEN ∧
      fieldFits desc "unit" IO_MAX_UNITS_NAME_LEN)
    ∧ ((lookupField desc "name" = none ∨ lookupField desc "path" = none) →
        sensorFw_RegisterCallback env desc type cbPtr ctx st =
          .ok (.LE_FAULT, none, st, []))
    ∧ (lookupField desc "readOnce" = none →
        ∀ p, ParseSensorInfo desc = some p → p.isReadOnce = false) := by
  refine ⟨parse_isSome_iff desc, ?_, ?_⟩
  · intro h
    exact register_parse_fail env desc type cbPtr ctx st (parse_none_of_missing desc h)
  · intro hro p hp
    obtain ⟨vn, vp, vu, -, -, -, -, -, -, hpe⟩ := (parse_some_iff desc p).1 hp
    subst hpe
    simp [readOnceOf, hro]

/-- Claim C8: a name, path or unit value that does not fit the
destination buffer of its field makes the parse fail with no record
produced, and a successful parse stores every field verbatim, never a
truncated copy. -/
theorem c8_no_silent_truncation (desc : jsonDesc) (v : String) :
    (lookupField desc "name" = some v → MAX_RESOURCE_NAME_LEN ≤ v.length →
      ParseSensorInfo desc = none)
    ∧ (lookupField desc "path" = some v → IO_MAX_RESOURCE_PATH_LEN ≤ v.length →
      ParseSensorInfo desc = none)
    ∧ (lookupField desc "unit" = some v → IO_MAX_UNITS_NAME_LEN ≤ v.length →
      ParseSensorInfo desc = none)
    ∧ (∀ p, ParseSensorInfo desc = some p →
        lookupField desc "name" = some p.name ∧
        lookupField desc "path" = some p.path ∧
        lookupField desc "unit" = some p.unit) := by
  refine ⟨?_, ?_, ?_, ?_⟩
  · intro h hlen
    rw [parse_char, h]
    simp
    omega
  · intro h hlen
    rw [parse_char]
    rcases hn : lookupField desc "name" with _ | vn
    · rfl
    · simp [h]
      intro
      omega
  · intro h hlen
    rw [parse_char]
    rcases hn : lookupField desc "name" with _ | vn
    · rfl
    · rcases hp : lookupField desc "path" with _ | vp
      · simp
      · simp [h]
        intro _ _
        omega
  · intro p hp
    obtain ⟨vn, vp, vu, h1, -, h2, -, h3, -, hpe⟩ := (parse_some_iff desc p).1 hp
    subst hpe
    exact ⟨h1, h2, h3⟩

/-- Claim C10: for an entry whose stored data type is not one of the
four payload kinds handled by the dispatch switch, PushData invokes no
sample callback, pushes nothing, and returns LE_OK. -/
theorem c10_unknown_type_is_noop_ok (h : sensorHandler_t) (st : FwState)
    (hk : h.info.type = .trigger) :
    PushData h st = (.LE_OK, st, []) :=
  PushData_trigger h st hk

/-- Claim C2: when the selected sample callback fails, PushData returns
LE_FAULT, leaves the framework state (hence every previously pushed Hub
value) untouched, and its trace contains no push; likewise PushConfig
when the config callback fails. -/
theorem c2_failed_callback_pushes_nothing (h : sensorHandler_t) (st : FwState)
    (ccb : String → Nat → le_result_t × String)
    (hkind : h.info.type ≠ .trigger)
    (hsf : h.callbacks.sample.result h.pluginContextPtr ≠ .LE_OK)
    (hcb : h.callbacks.configCb = some ccb)
    (hcf : (ccb "" h.pluginContextPtr).1 ≠ .LE_OK) :
    PushData h st =
      (.LE_FAULT, st, [Event.sampleCbInvoked h.info.type h.pluginContextPtr])
    ∧ (PushData h st).2.2.filter isPush = []
    ∧ PushConfig h st =
      (.LE_FAULT, st, [Event.configCbInvoked "" h.pluginContextPtr])
    ∧ (PushConfig h st).2.2.filter isPush = [] := by
  have h1 := PushData_fail h st hkind hsf
  have h2 : PushConfig h st =
      (.LE_FAULT, st, [Event.configCbInvoked "" h.pluginContextPtr]) := by
    simp [PushConfig, hcb, hcf]
  exact ⟨h1, by simp [h1, isPush], h2, by simp [h2, isPush]⟩

/-- Claim C4 (code bug): registering with a valid descriptor and an
out-of-range payload kind returns LE_FAULT with the pool block still
allocated (poolAllocated is 1, nothing released), while a parse failure
releases the block and leaves the state untouched. -/
theorem c4_invalid_kind_leaks_pool_block :
    sensorFw_RegisterCallback allOkEnv desc0 .SF_CB_INVALID cb0 7 initState =
      .ok (.LE_FAULT, none, { initState with poolAllocated := 1 }, [])
    ∧ sensorFw_RegisterCallback allOkEnv descNoPath .SF_CB_NUMERIC cb0 7 initState =
      .ok (.LE_FAULT, none, initState, []) :=
  ⟨rfl, rfl⟩


theorem register_valid_ok (env : HubEnv) (desc : jsonDesc)
    (type : sensorfwDataType_t) (cbPtr : sensorfwCallbacks_t) (ctx : Nat)
    (st : FwState) (parsed : parsedSensorInfo) (ioType : io_DataType_t)
    (hparse : ParseSensorInfo desc = some parsed)
    (htype : sfTypeToIo type = some ioType)
    (hci : env.createInput parsed.path = .LE_OK ∨
           env.createInput parsed.path = .LE_DUPLICATE)
    (hps : env.psensorCreateFails parsed.path = false)
    (hco : env.createOutput (parsed.path ++ "/config") = .LE_OK ∨
           env.createOutput (parsed.path ++ "/config") = .LE_DUPLICATE) :
    ∃ h2 st1 tr,
      sensorFw_RegisterCallback env desc type cbPtr ctx st =
        .ok (.LE_OK, some h2, st1, tr) ∧
      st1.registeredSensorCount = st.registeredSensorCount + 1 := by
  have hnt := ioType_ne_trigger htype
  unfold sensorFw_RegisterCallback
  rw [hparse, htype]
  dsimp only
  rcases hro : parsed.isReadOnce with _ | _
  case false =>
    rw [addEntry_periodic env _ _ rfl hps]
    dsimp only [withRef]
    by_cases hs : cbPtr.sample.result ctx = .LE_OK
    · rw [PushData_ok _ _ hnt hs]
      rcases hcb : cbPtr.configCb with _ | ccb
      · simp [hcb] <;> exact ⟨_, _, ⟨rfl, rfl⟩, rfl⟩
      · by_cases hpc : (ccb "" ctx).1 = .LE_OK <;>
          rcases hco with hco | hco <;>
            simp [hcb, hco, hpc, PushConfig] <;> exact ⟨_, _, ⟨rfl, rfl⟩, rfl⟩
    · rw [PushData_fail _ _ hnt hs]
      rcases hcb : cbPtr.configCb with _ | ccb
      · simp [hcb] <;> exact ⟨_, _, ⟨rfl, rfl⟩, rfl⟩
      · by_cases hpc : (ccb "" ctx).1 = .LE_OK <;>
          rcases hco with hco | hco <;>
            simp [hcb, hco, hpc, PushConfig] <;> exact ⟨_, _, ⟨rfl, rfl⟩, rfl⟩
  case true =>
    rw [addEntry_readOnce env _ _ rfl hci]
    dsimp only [withRef]
    by_cases hs : cbPtr.sample.result ctx = .LE_OK
    · rw [PushData_ok _ _ hnt hs]
      rcases hci with hci | hci <;> simp [hci] <;> exact ⟨_, _, ⟨rfl, rfl⟩, rfl⟩
    · rw [PushData_fail _ _ hnt hs]
      rcases hci with hci | hci <;> simp [hci] <;> exact ⟨_, _, ⟨rfl, rfl⟩, rfl⟩


/-- Claim C5 (amended): registration never fails for capacity reasons;
le_mem_ForceAlloc expands the pool when exhausted, so any number n of
registrations of a valid descriptor all return LE_OK and raise the
registered count by n, with no capacity-exceeded error in the code. -/
theorem c5_amended_force_alloc_never_fails (env : HubEnv) (desc : jsonDesc)
    (type : sensorfwDataType_t) (cbPtr : sensorfwCallbacks_t) (ctx : Nat)
    (parsed : parsedSensorInfo) (ioType : io_DataType_t) (n : Nat) (st : FwState)
    (hparse : ParseSensorInfo desc = some parsed)
    (htype : sfTypeToIo type = some ioType)
    (hci : env.createInput parsed.path = .LE_OK ∨
           env.createInput parsed.path = .LE_DUPLICATE)
    (hps : env.psensorCreateFails parsed.path = false)
    (hco : env.createOutput (parsed.path ++ "/config") = .LE_OK ∨
           env.createOutput (parsed.path ++ "/config") = .LE_DUPLICATE) :
    (registerMany env desc type cbPtr ctx n st).1 = List.replicate n .LE_OK ∧
    (registerMany env desc type cbPtr ctx n st).2.registeredSensorCount =
      st.registeredSensorCount + n := by
  induction n generalizing st with
  | zero => simp [registerMany]
  | succ n ih =>
      obtain ⟨h2, st1, tr, heq, hcount⟩ :=
        register_valid_ok env desc type cbPtr ctx st parsed ioType
          hparse htype hci hps hco
      have := ih st1
      simp only [registerMany, heq] at *
      refine ⟨by rw [this.1, List.replicate_succ], ?_⟩
      rw [this.2, hcount]
      omega

set_option maxRecDepth 100000 in
/-- Claim C5 counterexample: in the reduced-footprint configuration
(pool capacity 100) the first 101 registrations of a valid descriptor all
return LE_OK, so the first registration beyond capacity succeeds instead
of failing with a capacity error. -/
theorem c5_counterexample_beyond_capacity_succeeds :
    (registerMany allOkEnv desc0 .SF_CB_NUMERIC cb0 7
        (SENSOR_HANDLER_POOL_SIZE true + 1) initState).1 =
      List.replicate (SENSOR_HANDLER_POOL_SIZE true + 1) .LE_OK ∧
    (registerMany allOkEnv desc0 .SF_CB_NUMERIC cb0 7
        (SENSOR_HANDLER_POOL_SIZE true + 1) initState).2.registeredSensorCount =
      SENSOR_HANDLER_POOL_SIZE true + 1 := by
  constructor <;> decide

theorem addEntry_readOnce_fatal (env : HubEnv) (h : sensorHandler_t)
    (st : FwState) (hro : h.info.isReadOnce = true)
    (h1 : env.createInput h.info.path ≠ .LE_OK)
    (h2 : env.createInput h.info.path ≠ .LE_DUPLICATE) :
    AddDataHubEntry env h st = .fatal := by
  simp [AddDataHubEntry, hro, h1, h2]

theorem addEntry_psensor_fatal (env : HubEnv) (h : sensorHandler_t)
    (st : FwState) (hro : h.info.isReadOnce = false)
    (hps : env.psensorCreateFails h.info.path = true) :
    AddDataHubEntry env h st = .fatal := by
  simp [AddDataHubEntry, hro, hps]

/-- Claim C9 (amended): a Hub resource-creation result other than LE_OK
or LE_DUPLICATE (io_CreateInput, psensor_Create returning NULL, or
io_CreateOutput for the config companion) makes the corresponding
LE_ASSERT fail: the host process is killed and registration never
returns such a failure to the plugin. -/
theorem c9_amended_create_failure_is_fatal (env : HubEnv) (desc : jsonDesc)
    (type : sensorfwDataType_t) (cbPtr : sensorfwCallbacks_t) (ctx : Nat)
    (st : FwState) (parsed : parsedSensorInfo) (ioType : io_DataType_t)
    (hparse : ParseSensorInfo desc = some parsed)
    (htype : sfTypeToIo type = some ioType) :
    (parsed.isReadOnce = true →
      env.createInput parsed.path ≠ .LE_OK →
      env.createInput parsed.path ≠ .LE_DUPLICATE →
      sensorFw_RegisterCallback env desc type cbPtr ctx st = .fatal)
    ∧ (parsed.isReadOnce = false →
      env.psensorCreateFails parsed.path = true →
      sensorFw_RegisterCallback env desc type cbPtr ctx st = .fatal)
    ∧ (parsed.isReadOnce = false →
      env.psensorCreateFails parsed.path = false →
      cbPtr.configCb.isSome →
      env.createOutput (parsed.path ++ "/config") ≠ .LE_OK →
      env.createOutput (parsed.path ++ "/config") ≠ .LE_DUPLICATE →
      sensorFw_RegisterCallback env desc type cbPtr ctx st = .fatal) := by
  have hnt := ioType_ne_trigger htype
  refine ⟨?_, ?_, ?_⟩
  · intro hro h1 h2
    unfold sensorFw_RegisterCallback
    rw [hparse, htype]
    dsimp only
    rw [addEntry_readOnce_fatal env _ _ (by simp [hro]) h1 h2]
  · intro hro hps
    unfold sensorFw_RegisterCallback
    rw [hparse, htype]
    dsimp only
    rw [addEntry_psensor_fatal env _ _ (by simp [hro]) hps]
  · intro hro hps hcb h1 h2
    unfold sensorFw_RegisterCallback
    rw [hparse, htype]
    dsimp only
    rw [hro]
    rw [addEntry_periodic env _ _ rfl hps]
    dsimp only [withRef]
    by_cases hs : cbPtr.sample.result ctx = .LE_OK
    · rw [PushData_ok _ _ hnt hs]
      simp [hcb, h1, h2]
    · rw [PushData_fail _ _ hnt hs]
      simp [hcb, h1, h2]

/-- Claim C9 counterexample: with a read-once descriptor and a Hub
environment whose io_CreateInput fails with LE_FAULT, registration does
not return an error to the plugin; the LE_ASSERT kills the process. -/
theorem c9_counterexample_create_failure_kills_process :
    sensorFw_RegisterCallback envBadCreate descRO .SF_CB_NUMERIC cb0 7
      initState = .fatal := rfl


theorem lookupValue_setValue_self (l : List (String × SampleValue))
    (path : String) (v : SampleValue) :
    lookupValue (setValue path v l) path = some v := by
  induction l with
  | nil => simp [setValue, lookupValue]
  | cons a rest ih =>
      obtain ⟨p, w⟩ := a
      by_cases hp : p = path <;> simp [setValue, lookupValue, hp, ih]

theorem lookupValue_setValue_ne (l : List (String × SampleValue))
    (path q : String) (v : SampleValue) (h : path ≠ q) :
    lookupValue (setValue path v l) q = lookupValue l q := by
  induction l with
  | nil => simp [setValue, lookupValue, h]
  | cons a rest ih =>
      obtain ⟨p, w⟩ := a
      by_cases hp : p = path
      · subst hp
        simp [setValue, lookupValue, h]
      · simp [setValue, lookupValue, hp, ih]


theorem configUpdateHandler_eq (json : String) (h : sensorHandler_t)
    (st : FwState) : ConfigUpdateHandler json h st = (st, cuhTrace json h) := by
  cases hcb : h.callbacks.configCb <;> simp [ConfigUpdateHandler, cuhTrace, hcb]


theorem fireHandlers_eq (path json : String)
    (hs : List (String × sensorHandler_t)) (st : FwState) :
    fireHandlers path json hs st = (st, firedTrace path json hs) := by
  induction hs generalizing st with
  | nil => simp [fireHandlers, firedTrace]
  | cons a rest ih =>
      obtain ⟨p, h⟩ := a
      by_cases hp : p = path <;>
        simp [fireHandlers, firedTrace, hp, configUpdateHandler_eq, ih]

theorem firedTrace_nil (path json : String)
    (hs : List (String × sensorHandler_t))
    (hclean : ∀ x ∈ hs, x.1 ≠ path) : firedTrace path json hs = [] := by
  induction hs with
  | nil => rfl
  | cons a rest ih =>
      obtain ⟨p, h⟩ := a
      have hp : p ≠ path := hclean (p, h) (by simp)
      simp [firedTrace, hp]
      exact ih fun x hx => hclean x (by simp [hx])

theorem filter_keys_nil (key : String) (hs : List (String × sensorHandler_t))
    (hclean : ∀ x ∈ hs, x.1 ≠ key) :
    hs.filter (fun x => x.1 = key) = [] := by
  induction hs with
  | nil => rfl
  | cons a rest ih =>
      have ha : a.1 ≠ key := hclean a (by simp)
      simp [ha]
      intro x b hx
      exact hclean (x, b) (by simp [hx])


/-- Claim C3: for a non-read-once registration with a non-null config
callback, a Hub output is created at the config companion path and
exactly one push handler is subscribed there, and afterwards every
external JSON push to that path results in exactly one invocation of the
config callback, with the pushed JSON text passed verbatim together with
the stored plugin context. -/
theorem c3_config_roundtrip (env : HubEnv) (desc : jsonDesc)
    (type : sensorfwDataType_t) (cbPtr : sensorfwCallbacks_t) (ctx : Nat)
    (st : FwState) (parsed : parsedSensorInfo) (ioType : io_DataType_t)
    (ccb : String → Nat → le_result_t × String)
    (hparse : ParseSensorInfo desc = some parsed)
    (htype : sfTypeToIo type = some ioType)
    (hro : parsed.isReadOnce = false)
    (hcb : cbPtr.configCb = some ccb)
    (hps : env.psensorCreateFails parsed.path = false)
    (hco : env.createOutput (parsed.path ++ "/config") = .LE_OK)
    (hclean : ∀ x ∈ st.jsonHandlers, x.1 ≠ parsed.path ++ "/config") :
    RegisterReturnsOk (sensorFw_RegisterCallback env desc type cbPtr ctx st)
      (fun h2 st1 tr =>
        (parsed.path ++ "/config", io_DataType_t.json, "") ∈ st1.hubOutputs ∧
        st1.jsonHandlers.filter (fun x => x.1 = parsed.path ++ "/config") =
          [(parsed.path ++ "/config", h2)] ∧
        ∀ json, (ExternalConfigPush (parsed.path ++ "/config") json st1).2 =
          [Event.configCbInvoked json ctx]) := by
  have hnt := ioType_ne_trigger htype
  unfold sensorFw_RegisterCallback
  rw [hparse, htype]
  dsimp only
  rw [hro]
  rw [addEntry_periodic env _ _ rfl hps]
  dsimp only [withRef]
  have hfilter := filter_keys_nil (parsed.path ++ "/config") st.jsonHandlers hclean
  have hfired : ∀ json, firedTrace (parsed.path ++ "/config") json st.jsonHandlers = [] :=
    fun json => firedTrace_nil _ json st.jsonHandlers hclean
  by_cases hs : cbPtr.sample.result ctx = .LE_OK
  · rw [PushData_ok _ _ hnt hs]
    by_cases hpc : (ccb "" ctx).1 = .LE_OK <;>
      simp [hcb, hco, hpc, PushConfig, RegisterReturnsOk, hfilter,
        ExternalConfigPush, fireHandlers_eq, hfired, firedTrace, cuhTrace]
  · rw [PushData_fail _ _ hnt hs]
    by_cases hpc : (ccb "" ctx).1 = .LE_OK <;>
      simp [hcb, hco, hpc, PushConfig, RegisterReturnsOk, hfilter,
        ExternalConfigPush, fireHandlers_eq, hfired, firedTrace, cuhTrace]

/-- Claim C7: a non-read-once registration creates a periodic sensor
registered as the tick callback target, with the enable companion
resource holding true and the period companion resource holding the
60-second default; a read-once registration creates a plain input, no
periodic resource, and an explicit sensorFw_PushSample on the entry still
samples and re-pushes to the Hub. -/
theorem c7_periodic_vs_readonce (env : HubEnv) (desc : jsonDesc)
    (type : sensorfwDataType_t) (cbPtr : sensorfwCallbacks_t) (ctx : Nat)
    (st : FwState) (parsed : parsedSensorInfo) (ioType : io_DataType_t)
    (hparse : ParseSensorInfo desc = some parsed)
    (htype : sfTypeToIo type = some ioType)
    (hsample : cbPtr.sample.result ctx = .LE_OK)
    (hci : env.createInput parsed.path = .LE_OK ∨
           env.createInput parsed.path = .LE_DUPLICATE)
    (hps : env.psensorCreateFails parsed.path = false)
    (hco : env.createOutput (parsed.path ++ "/config") = .LE_OK ∨
           env.createOutput (parsed.path ++ "/config") = .LE_DUPLICATE) :
    (parsed.isReadOnce = false →
      RegisterReturnsOk (sensorFw_RegisterCallback env desc type cbPtr ctx st)
        (fun h2 st1 tr =>
          h2.info.sensorRef = some st.nextPsensorRef ∧
          lookupTarget st1.periodicTargets st.nextPsensorRef = some h2 ∧
          valueAt st1 (parsed.path ++ "/enable") = some (.boolean true) ∧
          valueAt st1 (parsed.path ++ "/period") =
            some (.numeric DEFAULT_SAMPLING_PERIOD_SEC) ∧
          tr.filter isPsensorCreate =
            [Event.psensorCreated st.nextPsensorRef parsed.path ioType parsed.unit] ∧
          tr.filter isIoCreateInput = []))
    ∧ (parsed.isReadOnce = true →
      RegisterReturnsOk (sensorFw_RegisterCallback env desc type cbPtr ctx st)
        (fun h2 st1 tr =>
          h2.info.sensorRef = none ∧
          st1.periodicTargets = st.periodicTargets ∧
          tr.filter isPsensorCreate = [] ∧
          tr.filter isIoCreateInput =
            [Event.ioCreateInput parsed.path ioType parsed.unit] ∧
          (sensorFw_PushSample (some h2) st1).1 = .LE_OK ∧
          (sensorFw_PushSample (some h2) st1).2.2 =
            [Event.sampleCbInvoked ioType ctx,
             Event.ioPush parsed.path (sampleValueOf cbPtr.sample ioType ctx)] ∧
          valueAt (sensorFw_PushSample (some h2) st1).2.1 parsed.path =
            some (sampleValueOf cbPtr.sample ioType ctx))) := by
  have hnt := ioType_ne_trigger htype
  have ne1 : parsed.path ≠ parsed.path ++ "/enable" := by
    simp [self_eq_append_iff]
  have ne2 : parsed.path ≠ parsed.path ++ "/period" := by
    simp [self_eq_append_iff]
  have ne3 : parsed.path ++ "/config" ≠ parsed.path ++ "/enable" := by
    simp [append_left_inj]
  have ne4 : parsed.path ++ "/config" ≠ parsed.path ++ "/period" := by
    simp [append_left_inj]
  have ne5 : parsed.path ++ "/period" ≠ parsed.path ++ "/enable" := by
    simp [append_left_inj]
  constructor
  · intro hro
    unfold sensorFw_RegisterCallback
    rw [hparse, htype]
    dsimp only
    rw [hro]
    rw [addEntry_periodic env _ _ rfl hps]
    dsimp only [withRef]
    rw [PushData_ok _ _ hnt hsample]
    rcases hcb : cbPtr.configCb with _ | ccb
    · simp [hcb, RegisterReturnsOk, lookupTarget, valueAt, sampledValue,
        sampleValueOf, pushEventOf, isPsensorCreate, isIoCreateInput,
        lookupValue_setValue_self, lookupValue_setValue_ne, ne1, ne2, ne5]
    · by_cases hpc : (ccb "" ctx).1 = .LE_OK <;>
        rcases hco with hco | hco <;>
          simp [hcb, hco, hpc, PushConfig, RegisterReturnsOk, lookupTarget,
            valueAt, sampledValue, sampleValueOf, pushEventOf, isPsensorCreate,
            isIoCreateInput, lookupValue_setValue_self, lookupValue_setValue_ne,
            ne1, ne2, ne3, ne4, ne5]
  · intro hro
    unfold sensorFw_RegisterCallback
    rw [hparse, htype]
    dsimp only
    rw [hro]
    rw [addEntry_readOnce env _ _ rfl hci]
    dsimp only [withRef]
    rw [PushData_ok _ _ hnt hsample]
    rcases hci with hci | hci <;>
      simp [hci, RegisterReturnsOk, isPsensorCreate, isIoCreateInput,
        sensorFw_PushSample, sampledValue, sampleValueOf, pushEventOf, valueAt,
        lookupValue_setValue_self, PushData_ok, hnt, hsample]



/-- Witness for claim C1 at a concrete periodic numeric registration. -/
theorem c1_witness :
    ParseSensorInfo desc0 =
      some { name := "temp", path := "room/temp", isReadOnce := false, unit := "C" } ∧
    RegisterReturnsOk
      (sensorFw_RegisterCallback allOkEnv desc0 .SF_CB_NUMERIC cb0 7 initState)
      (fun _ st1 tr =>
        st1.registeredSensorCount = initState.registeredSensorCount + 1 ∧
        ∃ pushEvent, isPushAt "room/temp" pushEvent = true ∧
          sampleEventsAt "room/temp" tr =
            [Event.sampleCbInvoked .numeric 7, pushEvent] ∧
          pushedValuesAt "room/temp" tr = [sampleValueOf cb0.sample .numeric 7]) :=
  ⟨by decide,
   c1_register_immediate_sample_and_push allOkEnv desc0 .SF_CB_NUMERIC cb0 7 initState
     { name := "temp", path := "room/temp", isReadOnce := false, unit := "C" } .numeric
     (by decide) rfl rfl (Or.inl rfl) rfl (Or.inl rfl)⟩

/-- Witness for claim C2 at a concrete entry with failing callbacks. -/
theorem c2_witness :
    hFail.callbacks.sample.result hFail.pluginContextPtr ≠ .LE_OK ∧
    (PushData hFail initState =
        (.LE_FAULT, initState,
         [Event.sampleCbInvoked hFail.info.type hFail.pluginContextPtr]) ∧
      (PushData hFail initState).2.2.filter isPush = [] ∧
      PushConfig hFail initState =
        (.LE_FAULT, initState,
         [Event.configCbInvoked "" hFail.pluginContextPtr]) ∧
      (PushConfig hFail initState).2.2.filter isPush = []) :=
  ⟨by decide,
   c2_failed_callback_pushes_nothing hFail initState (fun _ _ => (.LE_FAULT, ""))
     (by decide) (by decide) rfl (by decide)⟩

/-- Witness for claim C3 at a concrete configurable registration. -/
theorem c3_witness :
    RegisterReturnsOk
      (sensorFw_RegisterCallback allOkEnv desc0 .SF_CB_NUMERIC cb0 7 initState)
      (fun h2 st1 _ =>
        ("room/temp" ++ "/config", io_DataType_t.json, "") ∈ st1.hubOutputs ∧
        st1.jsonHandlers.filter (fun x => x.1 = "room/temp" ++ "/config") =
          [("room/temp" ++ "/config", h2)] ∧
        ∀ json, (ExternalConfigPush ("room/temp" ++ "/config") json st1).2 =
          [Event.configCbInvoked json 7]) :=
  c3_config_roundtrip allOkEnv desc0 .SF_CB_NUMERIC cb0 7 initState
    { name := "temp", path := "room/temp", isReadOnce := false, unit := "C" } .numeric
    (fun _ _ => (.LE_OK, "cfg-doc"))
    (by decide) rfl rfl rfl rfl rfl
    (by intro x hx; exact absurd hx (List.not_mem_nil x))

/-- Witness for claim C5 amended, at three registrations from the initial
state. -/
theorem c5_witness :
    (registerMany allOkEnv desc0 .SF_CB_NUMERIC cb0 7 3 initState).1 =
      List.replicate 3 .LE_OK ∧
    (registerMany allOkEnv desc0 .SF_CB_NUMERIC cb0 7 3 initState).2.registeredSensorCount =
      initState.registeredSensorCount + 3 :=
  c5_amended_force_alloc_never_fails allOkEnv desc0 .SF_CB_NUMERIC cb0 7
    { name := "temp", path := "room/temp", isReadOnce := false, unit := "C" } .numeric
    3 initState (by decide) rfl (Or.inl rfl) rfl (Or.inl rfl)

/-- Witness for claim C6 at a descriptor with no path field. -/
theorem c6_witness :
    lookupField descNoPath "path" = none ∧
    sensorFw_RegisterCallback allOkEnv descNoPath .SF_CB_NUMERIC cb0 7 initState =
      .ok (.LE_FAULT, none, initState, []) :=
  ⟨by decide,
   (c6_required_fields allOkEnv descNoPath .SF_CB_NUMERIC cb0 7 initState).2.1
     (Or.inr (by decide))⟩

/-- Witness for claim C7 at a concrete read-once registration. -/
theorem c7_witness :
    RegisterReturnsOk
      (sensorFw_RegisterCallback allOkEnv descRO .SF_CB_NUMERIC cb0 7 initState)
      (fun h2 st1 tr =>
        h2.info.sensorRef = none ∧
        st1.periodicTargets = initState.periodicTargets ∧
        tr.filter isPsensorCreate = [] ∧
        tr.filter isIoCreateInput = [Event.ioCreateInput "room/temp" .numeric "C"] ∧
        (sensorFw_PushSample (some h2) st1).1 = .LE_OK ∧
        (sensorFw_PushSample (some h2) st1).2.2 =
          [Event.sampleCbInvoked .numeric 7,
           Event.ioPush "room/temp" (sampleValueOf cb0.sample .numeric 7)] ∧
        valueAt (sensorFw_PushSample (some h2) st1).2.1 "room/temp" =
          some (sampleValueOf cb0.sample .numeric 7)) :=
  (c7_periodic_vs_readonce allOkEnv descRO .SF_CB_NUMERIC cb0 7 initState
    { name := "temp", path := "room/temp", isReadOnce := true, unit := "C" } .numeric
    (by decide) rfl rfl (Or.inl rfl) rfl (Or.inl rfl)).2 rfl

/-- Witness for claim C8 at a descriptor whose name value overflows the
name buffer. -/
theorem c8_witness :
    lookupField descLongName "name" = some "aaaaaaaaaaaaaaaaaaaaaaaaa" ∧
    MAX_RESOURCE_NAME_LEN ≤ ("aaaaaaaaaaaaaaaaaaaaaaaaa" : String).length ∧
    ParseSensorInfo descLongName = none :=
  ⟨by decide, by decide,
   (c8_no_silent_truncation descLongName "aaaaaaaaaaaaaaaaaaaaaaaaa").1
     (by decide) (by decide)⟩

/-- Witness for claim C9 amended, at a read-once registration in an
environment whose io_CreateInput fails. -/
theorem c9_witness :
    sensorFw_RegisterCallback envBadCreate descRO .SF_CB_NUMERIC cb0 7 initState =
      .fatal :=
  (c9_amended_create_failure_is_fatal envBadCreate descRO .SF_CB_NUMERIC cb0 7 initState
    { name := "temp", path := "room/temp", isReadOnce := true, unit := "C" } .numeric
    (by decide) rfl).1 rfl (by decide) (by decide)

/-- Witness for claim C10 at a concrete entry of the trigger kind. -/
theorem c10_witness :
    hTrig.info.type = .trigger ∧ PushData hTrig initState = (.LE_OK, initState, []) :=
  ⟨rfl, c10_unknown_type_is_noop_ok hTrig initState rfl⟩

end SensorFw
